import Mathlib

/-!
Verification development for the real-time interaction layer of the
post-master backend: the in-process event bus (src/core/eventBus.js), the
chat feature's presence map and message pipeline (src/features/chat/index.js),
the notification listeners of the post feature (src/features/post/index.js),
and the Redis read-through cache helpers.

JavaScript runtime values are embedded shallowly: the single-threaded
cooperative scheduler means each socket handler runs to completion between
suspension points, so a handler is a pure function from the shared state to
the new state plus the list of socket/domain events it emitted.  Thrown
exceptions are `Except JsError`; a `try`/`catch` block is a `match` on that
`Except`.
-/

namespace PostMaster

/-- JavaScript exceptions, carried as their message string. -/
abbrev JsError := String

/-! ## Domain Event Bus (src/core/eventBus.js)

`listeners` is a `Map` from event name to an array of handler references.
An absent key and a present-but-empty array are indistinguishable to `emit`
and `off`, so the map is embedded as a total function returning `[]` for
absent events.  Handler identity (JS reference equality, used by
`Array.prototype.indexOf`) is the decidable equality of the handler type `H`;
the behaviour of a handler when invoked is a separate interpretation
`run : H → Except JsError Unit`. -/

structure EventBus (H : Type) where
  listeners : String → List H

/-- The empty bus (fresh `new EventBus()`). -/
def EventBus.empty (H : Type) : EventBus H := ⟨fun _ => []⟩

/-- The subscriber array for an event (`this.listeners.get(event) || []`). -/
def EventBus.subscribers (bus : EventBus H) (event : String) : List H :=
  bus.listeners event

/-- `on(event, handler)`: push the handler onto the event's array
(creating the array first when absent). -/
def EventBus.on (bus : EventBus H) (event : String) (h : H) : EventBus H :=
  ⟨fun e => if e = event then bus.listeners event ++ [h] else bus.listeners e⟩

/-- `off(event, handler)`: look up the array, take `indexOf(handler)`, and
splice out that single index when it is found.  The handler argument is
`Option H` because JS callers may omit it (`off(event)` passes `undefined`,
which is never identical to a stored handler). -/
def EventBus.off [DecidableEq H] (bus : EventBus H) (event : String)
    (harg : Option H) : EventBus H :=
  match (bus.listeners event).findIdx? (fun x => harg = some x) with
  | none => bus
  | some i =>
      ⟨fun e => if e = event then (bus.listeners event).eraseIdx i
                else bus.listeners e⟩

/-- The `for … of` loop body of `emit`: run each handler in array order; a
throwing handler's error is caught (and logged) in place, recorded here as
`some err`, and the loop continues with the next handler. -/
def emitRun (run : H → Except JsError Unit) : List H → List (H × Option JsError)
  | [] => []
  | h :: rest =>
      (h, match run h with
          | .ok _ => none
          | .error e => some e) :: emitRun run rest

/-- `emit(event, data)`: await every subscribed handler in order inside a
per-handler `try`/`catch`; the resulting promise always resolves, returning
here the trace of invocations.  `run` interprets what each awaited handler
call does with the payload. -/
def EventBus.emit (bus : EventBus H) (event : String)
    (run : H → Except JsError Unit) : Except JsError (List (H × Option JsError)) :=
  .ok (emitRun run (bus.listeners event))

/-! ## Chat feature (src/features/chat/index.js)

The socket handlers close over a shared `onlineUsers : Map<userId, socketId>`
and the Postgres tables `users`, `chat_messages` and `notifications`
(src/scripts table definitions: `chat_messages.sender_id` and
`chat_messages.receiver_id` both carry `REFERENCES users(id)` foreign keys).
The `Map` is embedded as an insertion-ordered association list with
set-overwrites and delete-removes semantics. -/

/-- `Map.get`: value of the first (unique) entry with the given key. -/
def mapGet (m : List (String × String)) (k : String) : Option String :=
  (m.find? (fun p => p.1 = k)).map (fun p => p.2)

/-- `Map.set`: overwrite in place when the key exists, else append. -/
def mapSet (m : List (String × String)) (k v : String) : List (String × String) :=
  if (m.find? (fun p => p.1 = k)).isSome then
    m.map (fun p => if p.1 = k then (k, v) else p)
  else m ++ [(k, v)]

/-- `Map.delete`: remove the entry with the given key. -/
def mapDelete (m : List (String × String)) (k : String) : List (String × String) :=
  m.filter (fun p => p.1 ≠ k)

/-- A row of `chat_messages` as the handlers read and write it
(cosmetic join columns `sender_name` / `sender_avatar` omitted). -/
structure Msg where
  id : String
  senderId : String
  receiverId : String
  content : String
  kind : String
  isRead : Bool
deriving DecidableEq, Repr

/-- A row of `notifications` as created from a `notification.create`
payload (`userId`, `type`, `title`, `message`, `data`). -/
structure Notification where
  userId : String
  ntype : String
  title : String
  message : String
  payload : List (String × String)
deriving DecidableEq, Repr

/-- The state shared by all chat socket handlers: the `users` table (ids),
the `chat_messages` table, the in-memory `onlineUsers` map, and the
`notifications` table written by the notification fan-out. -/
structure ChatState where
  users : List String
  messages : List Msg
  onlineUsers : List (String × String)
  notifications : List Notification
deriving DecidableEq, Repr

/-- Socket emissions performed by the chat handlers. -/
inductive SockEvent where
  | errorEvt (socketId msg : String)
  | messageReceive (socketId : String) (m : Msg)
  | messageSent (socketId : String) (m : Msg)
  | messageRead (socketId messageId : String)
deriving DecidableEq, Repr

/-- `onlineUsers.has(userId)` — the chat feature's notion of presence. -/
def isOnline (st : ChatState) (userId : String) : Bool :=
  (mapGet st.onlineUsers userId).isSome

/-- The `authenticate` handler's registry effect after the JWT verifies:
`onlineUsers.set(userId, socket.id)` (and `socket.userId = userId`). -/
def authenticate (st : ChatState) (userId socketId : String) : ChatState :=
  { st with onlineUsers := mapSet st.onlineUsers userId socketId }

/-- The `disconnect` handler: when the socket had authenticated as some
user, `onlineUsers.delete(socket.userId)`; otherwise nothing. -/
def disconnect (st : ChatState) (socketUserId : Option String) : ChatState :=
  match socketUserId with
  | none => st
  | some u => { st with onlineUsers := mapDelete st.onlineUsers u }

/-- Modelled from the spec: the subscriber of the `notification.create`
domain event (the Notification Fan-out's record-creation step) is not among
the source files; per the spec it "creates a durable Notification record"
for the payload's recipient. -/
def notificationCreateHandler (notifs : List Notification) (n : Notification) :
    List Notification :=
  notifs ++ [n]

/-- The `chat.message.sent` listener (chat feature, event-listeners section):
look up the receiver in `onlineUsers`; when absent, emit
`notification.create` with type `chat_message`, handled by the fan-out. -/
def chatMessageSentListener (st : ChatState)
    (messageId senderId receiverId content : String) : ChatState :=
  match mapGet st.onlineUsers receiverId with
  | some _ => st
  | none =>
      let n : Notification :=
        { userId := receiverId
          ntype := "chat_message"
          title := "New Message"
          message := "You have a new message"
          payload := [("senderId", senderId), ("messageId", messageId),
                      ("preview", content.take 100)] }
      { st with notifications := notificationCreateHandler st.notifications n }

/-- The online branch's `UPDATE chat_messages SET is_read = true WHERE id =
$1` over the embedded table. -/
def liveMarkRead (msgs : List Msg) (mid : String) : List Msg :=
  msgs.map (fun m => if m.id = mid then { m with isRead := true } else m)

/-- The `message:send` handler body up to (and excluding) the
`chat.message.sent` domain-event emission.  Returns the new state, the
socket events emitted, and the `chat.message.sent` payload when the handler
reached that emission (`none` when it returned early or threw).  The
`INSERT` throws a foreign-key violation — caught by the handler's
`try`/`catch`, which emits a generic error to the sender — exactly when the
sender or receiver id is not a `users` row. -/
def handleSend (st : ChatState) (socketUserId : Option String)
    (senderSock receiverId content kind newId : String) :
    ChatState × List SockEvent × Option (String × String × String × String) :=
  match socketUserId with
  | none => (st, [.errorEvt senderSock "Not authenticated"], none)
  | some uid =>
    if receiverId = "" ∨ content = "" then
      (st, [.errorEvt senderSock "Receiver ID and content are required"], none)
    else if uid ∈ st.users ∧ receiverId ∈ st.users then
      let m0 : Msg := { id := newId, senderId := uid, receiverId := receiverId,
                        content := content, kind := kind, isRead := false }
      let st1 := { st with messages := st.messages ++ [m0] }
      match mapGet st.onlineUsers receiverId with
      | some rsock =>
          let st2 := { st1 with messages := liveMarkRead st1.messages newId }
          (st2, [.messageReceive rsock m0,
                 .messageSent senderSock { m0 with isRead := true }],
           some (newId, uid, receiverId, content))
      | none =>
          (st1, [.messageSent senderSock m0], some (newId, uid, receiverId, content))
    else (st, [.errorEvt senderSock "Failed to send message"], none)

/-- The complete send pipeline: the `message:send` handler followed by
`eventBus.emit('chat.message.sent', …)`, which awaits the single registered
listener (and, through it, the fan-out's `notification.create` handling). -/
def sendMessage (st : ChatState) (socketUserId : Option String)
    (senderSock receiverId content kind newId : String) :
    ChatState × List SockEvent :=
  match handleSend st socketUserId senderSock receiverId content kind newId with
  | (st1, evs, some (mid, sid, rid, body)) =>
      (chatMessageSentListener st1 mid sid rid body, evs)
  | (st1, evs, none) => (st1, evs)

/-- The `UPDATE chat_messages SET is_read = true WHERE id = $1 AND
receiver_id = $2` of the `message:read` handler over the embedded table. -/
def recipientMarkRead (msgs : List Msg) (mid reader : String) : List Msg :=
  msgs.map (fun m =>
    if m.id = mid ∧ m.receiverId = reader then { m with isRead := true } else m)

/-- The `message:read` handler: `UPDATE chat_messages SET is_read = true
WHERE id = $1 AND receiver_id = $2`, then `SELECT sender_id … WHERE id = $1`,
and — whenever that row exists and its sender is online — emit
`message:read` to the sender's socket. -/
def handleRead (st : ChatState) (socketUserId : Option String)
    (messageId : String) : ChatState × List SockEvent :=
  match socketUserId with
  | none => (st, [])
  | some reader =>
      let st1 := { st with messages := recipientMarkRead st.messages messageId reader }
      match st1.messages.find? (fun m => m.id = messageId) with
      | none => (st1, [])
      | some m =>
          match mapGet st1.onlineUsers m.senderId with
          | some ssock => (st1, [.messageRead ssock messageId])
          | none => (st1, [])

/-! ## Notification listeners of the post feature (src/features/post/index.js)

The `post.liked` listener looks the post up in the `posts` table and emits
`notification.create` for its author unless the liker is the author; the
`comment.created` listener compares the commenter against the
`postAuthorId` carried in the event payload. -/

/-- A row of `posts` as the `post.liked` listener reads it. -/
structure Post where
  id : String
  userId : String
  title : String
deriving DecidableEq, Repr

/-- The `post.liked` listener: `SELECT user_id, title FROM posts WHERE id =
$1`; when a row exists and its author differs from the liker, emit
`notification.create` (handled by the fan-out); a self-like is suppressed. -/
def postLikedListener (posts : List Post) (notifs : List Notification)
    (postId likerId : String) : List Notification :=
  match posts.find? (fun p => p.id = postId) with
  | none => notifs
  | some p =>
      if p.userId ≠ likerId then
        notificationCreateHandler notifs
          { userId := p.userId
            ntype := "post_like"
            title := "New Like"
            message := "Someone liked your post \"" ++ p.title ++ "\""
            payload := [("postId", postId), ("likerId", likerId)] }
      else notifs

/-- The `comment.created` listener: when the commenter is not the post
author named in the payload, emit `notification.create`; a comment on one's
own post is suppressed. -/
def commentCreatedListener (notifs : List Notification)
    (postId userId postAuthorId commentId : String) : List Notification :=
  if userId ≠ postAuthorId then
    notificationCreateHandler notifs
      { userId := postAuthorId
        ntype := "post_comment"
        title := "New Comment"
        message := "Someone commented on your post"
        payload := [("postId", postId), ("commentId", commentId)] }
  else notifs

/-! ## Redis cache helpers (src/unnamed/part_017)

The backing `ioredis` client is embedded as a store of entries with
absolute expiry times plus a `failing` flag standing for a connection in an
error state (every command on it rejects).  `JSON.stringify` /
`JSON.parse` are platform collaborators: the model is parametric in the
cached value type `V` together with `stringify : V → String` and
`parse : String → Except JsError V`. -/

/-- The redis store: entries `(key, raw string value, absolute expiry)`
plus a failure flag for the connection. -/
structure Redis where
  entries : List (String × String × Nat)
  failing : Bool
deriving DecidableEq, Repr

/-- `redis.get(key)` at absolute time `now`: the stored string when the key
exists and has not expired. -/
def redisGet (r : Redis) (now : Nat) (k : String) : Except JsError (Option String) :=
  if r.failing then .error "connection error"
  else .ok ((r.entries.find? (fun e => e.1 = k)).bind
              (fun e => if now < e.2.2 then some e.2.1 else none))

/-- `redis.setex(key, ttl, value)` at absolute time `now`. -/
def redisSetex (r : Redis) (now : Nat) (k : String) (ttl : Nat) (value : String) :
    Except JsError Redis :=
  if r.failing then .error "connection error"
  else .ok { r with entries := r.entries.filter (fun e => e.1 ≠ k) ++ [(k, value, now + ttl)] }

/-- `redis.del(key)`. -/
def redisDel (r : Redis) (k : String) : Except JsError Redis :=
  if r.failing then .error "connection error"
  else .ok { r with entries := r.entries.filter (fun e => e.1 ≠ k) }

/-- Glob matching as the repo uses it (`"family:*"`-shaped patterns). -/
def matchGlob (pat k : String) : Bool :=
  if pat.endsWith "*" then (pat.dropRight 1).isPrefixOf k else pat == k

/-- `redis.keys(pattern)`. -/
def redisKeys (r : Redis) (pat : String) : Except JsError (List String) :=
  if r.failing then .error "connection error"
  else .ok ((r.entries.map (fun e => e.1)).filter (matchGlob pat))

/-- `redis.del(...keys)`. -/
def redisDelMany (r : Redis) (ks : List String) : Except JsError Redis :=
  if r.failing then .error "connection error"
  else .ok { r with entries := r.entries.filter (fun e => e.1 ∉ ks) }

/-- `setCache(key, value, ttl = 3600)`: stringify and `setex` inside a
`try`/`catch` that logs and swallows any error.  Returns the store and the
log lines. -/
def setCache (stringify : V → String) (r : Redis) (now : Nat)
    (k : String) (v : V) (ttl : Nat) : Except JsError (Redis × List String) :=
  match redisSetex r now k ttl (stringify v) with
  | .ok r2 => .ok (r2, [])
  | .error e => .ok (r, ["Redis set error: " ++ e])

/-- `getCache(key)`: `redis.get` then `value ? JSON.parse(value) : null`
(the empty string is falsy), inside a `try`/`catch` that logs and returns
`null` on any error — a throw from either the `get` or the parse lands in
the catch. -/
def getCache (parse : String → Except JsError V) (r : Redis) (now : Nat)
    (k : String) : Except JsError (Option V) :=
  match redisGet r now k with
  | .error _ => .ok none
  | .ok none => .ok none
  | .ok (some s) =>
      if s = "" then .ok none
      else
        match parse s with
        | .ok x => .ok (some x)
        | .error _ => .ok none

/-- `deleteCache(key)`: `redis.del` inside a `try`/`catch` that logs and
swallows any error. -/
def deleteCache (r : Redis) (k : String) : Except JsError (Redis × List String) :=
  match redisDel r k with
  | .ok r2 => .ok (r2, [])
  | .error e => .ok (r, ["Redis delete error: " ++ e])

/-- `clearPattern(pattern)`: `redis.keys` then, when any matched,
`redis.del(...keys)`, inside a `try`/`catch` that logs and swallows any
error. -/
def clearPattern (r : Redis) (pat : String) : Except JsError (Redis × List String) :=
  match redisKeys r pat with
  | .error e => .ok (r, ["Redis clear pattern error: " ++ e])
  | .ok ks =>
      if ks.length > 0 then
        match redisDelMany r ks with
        | .ok r2 => .ok (r2, [])
        | .error e => .ok (r, ["Redis clear pattern error: " ++ e])
      else .ok (r, [])

/-! ## Spec-side registry ledger

The spec phrases presence as "at least one registered connection handle
exists".  To compare the code's registry against that reading, a ledger of
register/unregister events tracks, per user, the multiset of handles
registered and not yet unregistered.  This definition follows the spec's
words, not the source. -/

/-- A register or unregister call on the Connection Registry. -/
inductive RegEvent where
  | reg (userId handle : String)
  | unreg (userId handle : String)
deriving DecidableEq, Repr

/-- Handles currently registered for a user according to the spec's
reading: every handle registered for them and not since unregistered. -/
def specRegisteredHandles (evs : List RegEvent) (u : String) : List String :=
  evs.foldl
    (fun acc e =>
      match e with
      | .reg u2 h => if u2 = u then acc ++ [h] else acc
      | .unreg u2 h => if u2 = u then acc.erase h else acc)
    []

/-! ## Concrete scenarios used as witnesses and counterexamples -/

/-- A two-user state with `b` online on socket `sB`. -/
def stOnlineB : ChatState :=
  { users := ["a", "b"], messages := [], onlineUsers := [("b", "sB")],
    notifications := [] }

/-- A two-user state with everyone offline. -/
def stAllOffline : ChatState :=
  { users := ["a", "b"], messages := [], onlineUsers := [], notifications := [] }

/-- Three users; one unread message from `a` to `b`; `a` online. -/
def stReadScenario : ChatState :=
  { users := ["a", "b", "c"],
    messages := [{ id := "m1", senderId := "a", receiverId := "b",
                   content := "hi", kind := "text", isRead := false }],
    onlineUsers := [("a", "sA")], notifications := [] }

/-- A handler interpretation for the bus witnesses: handler `0` throws. -/
def runDemo : Nat → Except JsError Unit :=
  fun n => if n = 0 then .error "boom" else .ok ()

/-- A bus with two handlers registered for event `e`. -/
def busDemo : EventBus Nat :=
  ((EventBus.empty Nat).on "e" 0).on "e" 1

/-- A bus whose `e` subscribers are `[1, 2, 1]`. -/
def busDup : EventBus Nat :=
  (((EventBus.empty Nat).on "e" 1).on "e" 2).on "e" 1

/-- Bool-valued cache contents for the cache witnesses: JSON boolean
stringification. -/
def stringifyBool : Bool → String :=
  fun b => if b then "true" else "false"

/-- The inverse of [stringifyBool]: JSON boolean parsing. -/
def parseBool : String → Except JsError Bool :=
  fun s =>
    if s = "true" then .ok true
    else if s = "false" then .ok false
    else .error "unexpected token"

/-! ## Helper lemmas -/

theorem emitRun_eq_map (run : H → Except JsError Unit) (hs : List H) :
    emitRun run hs =
      hs.map (fun x => (x, match run x with | .ok _ => none | .error e => some e)) := by
  induction hs with
  | nil => rfl
  | cons h rest ih => simp [emitRun, ih]

theorem findIdx?_eq_none_of_not_mem [DecidableEq H] (hs : List H) (h : H)
    (hmem : h ∉ hs) : hs.findIdx? (fun x => (some h : Option H) = some x) = none := by
  induction hs with
  | nil => rfl
  | cons a rest ih =>
      rw [List.findIdx?_cons]
      have hne : h ≠ a := fun he => hmem (he ▸ List.mem_cons_self a rest)
      have : ((some h : Option H) = some a) = False := by
        simp [hne]
      simp only [this, decide_False, cond_false]
      rw [List.findIdx?_succ]
      simp only [ih (fun hm => hmem (List.mem_cons_of_mem a hm)), Option.map_none']
      rfl

theorem findIdx?_none_arg [DecidableEq H] (hs : List H) :
    hs.findIdx? (fun x => (none : Option H) = some x) = none := by
  induction hs with
  | nil => rfl
  | cons a rest ih =>
      rw [List.findIdx?_cons, List.findIdx?_succ]
      simp [ih]

theorem findIdx?_append_self [DecidableEq H] (l1 l2 : List H) (h : H)
    (hmem : h ∉ l1) :
    (l1 ++ h :: l2).findIdx? (fun x => (some h : Option H) = some x) =
      some l1.length := by
  induction l1 with
  | nil => simp [List.findIdx?_cons]
  | cons a rest ih =>
      have hne : h ≠ a := fun he => hmem (he ▸ List.mem_cons_self a rest)
      rw [List.cons_append, List.findIdx?_cons]
      have : ((some h : Option H) = some a) = False := by simp [hne]
      simp only [this, decide_False, cond_false]
      rw [List.findIdx?_succ, ih (fun hm => hmem (List.mem_cons_of_mem a hm))]
      rfl

theorem eraseIdx_append_middle (l1 l2 : List H) (h : H) :
    (l1 ++ h :: l2).eraseIdx l1.length = l1 ++ l2 := by
  induction l1 with
  | nil => rfl
  | cons a rest ih => simp [List.eraseIdx, ih]

theorem find?_append_eq (l1 l2 : List α) (p : α → Bool) :
    (l1 ++ l2).find? p =
      match l1.find? p with
      | some a => some a
      | none => l2.find? p := by
  induction l1 with
  | nil => rfl
  | cons a rest ih =>
      by_cases hp : p a
      · simp [List.find?_cons_of_pos _ hp]
      · simp only [List.cons_append, List.find?_cons_of_neg _ hp, ih]

/-! ## C6: event bus ordering, isolation and empty-event behaviour -/

/-- C6: for every event, `emit` invokes the subscribed handlers in their
registration order (`on` appends at the tail, and the trace of `emit` is
exactly one invocation per subscriber, in array order); a handler's thrown
error is recorded by the per-handler catch rather than propagated, so
`emit` itself always resolves; an event with zero subscribers yields the
empty trace, resolving successfully. -/
theorem C6_emit_order_and_isolation {H : Type} (bus : EventBus H) (event : String)
    (run : H → Except JsError Unit) (h : H) :
    bus.emit event run =
      Except.ok ((bus.subscribers event).map
        (fun x => (x, match run x with | .ok _ => none | .error e => some e)))
    ∧ (bus.on event h).subscribers event = bus.subscribers event ++ [h]
    ∧ (bus.subscribers event = [] → bus.emit event run = Except.ok []) := by
  refine ⟨?_, ?_, ?_⟩
  · rw [EventBus.emit, emitRun_eq_map]
    rfl
  · simp [EventBus.on, EventBus.subscribers]
  · intro hempty
    rw [EventBus.emit]
    have : bus.listeners event = [] := hempty
    rw [this]
    rfl

/-- Witness for C6 at a concrete bus: handler `0` throws, handler `1` still
runs, `emit` resolves; the empty bus resolves with an empty trace. -/
theorem C6_witness :
    busDemo.emit "e" runDemo =
      Except.ok ((busDemo.subscribers "e").map
        (fun x => (x, match runDemo x with | .ok _ => none | .error e => some e)))
    ∧ (EventBus.empty Nat).emit "x" runDemo = Except.ok [] := by
  refine ⟨(C6_emit_order_and_isolation busDemo "e" runDemo 0).1, ?_⟩
  exact (C6_emit_order_and_isolation (EventBus.empty Nat) "x" runDemo 0).2.2 rfl

/-! ## C10: `off` removes at most the first identical handler -/

/-- C10: `off(event, handler)` removes exactly the first stored occurrence
identical to the handler when one exists; when the handler was never
registered for the event — in particular when the handler argument is
omitted, as in the post feature's cleanup calls `off('post.created')` etc.
— the subscriber list is left unchanged. -/
theorem C10_off_removes_first {H : Type} [DecidableEq H] (bus : EventBus H)
    (event : String) (h : H) :
    (∀ l1 l2, bus.subscribers event = l1 ++ h :: l2 → h ∉ l1 →
        (bus.off event (some h)).subscribers event = l1 ++ l2)
    ∧ (h ∉ bus.subscribers event → bus.off event (some h) = bus)
    ∧ bus.off event none = bus := by
  refine ⟨?_, ?_, ?_⟩
  · intro l1 l2 hsplit hnot
    rw [EventBus.off]
    have hl : bus.listeners event = l1 ++ h :: l2 := hsplit
    rw [hl, findIdx?_append_self l1 l2 h hnot]
    simp only [EventBus.subscribers, if_pos rfl]
    rw [hl]
    exact eraseIdx_append_middle l1 l2 h
  · intro hnot
    rw [EventBus.off]
    rw [findIdx?_eq_none_of_not_mem (bus.listeners event) h hnot]
  · rw [EventBus.off]
    rw [findIdx?_none_arg (bus.listeners event)]

/-- Witness for C10 at a concrete bus with subscribers `[1, 2, 1]`:
removing `2` leaves `[1, 1]`; removing the unregistered `3` and the cleanup
call without a handler both leave the bus unchanged. -/
theorem C10_witness :
    (busDup.off "e" (some 2)).subscribers "e" = [1, 1]
    ∧ busDup.off "e" (some 3) = busDup
    ∧ busDup.off "e" none = busDup := by
  refine ⟨?_, ?_, (C10_off_removes_first busDup "e" 3).2.2⟩
  · exact (C10_off_removes_first busDup "e" 2).1 [1] [1] rfl (by decide)
  · exact (C10_off_removes_first busDup "e" 3).2.1 (by decide)

/-! ## C8: cache set/get/invalidate algebra -/

/-- C8: with a healthy connection, a `getCache(k)` performed after
`setCache(k, v, ttl)`, at any time before the ttl has elapsed and with no
intervening `invalidate(k)`, returns `v`; and after `deleteCache(k)` the
same `getCache(k)` is a miss.  `stringify`/`parse` are the JSON platform
pair: parsing inverts stringification and stringification is never the
empty string. -/
theorem C8_cache_get_set_invalidate {V : Type} (stringify : V → String)
    (parse : String → Except JsError V) (r : Redis) (now now2 : Nat)
    (k : String) (v : V) (ttl : Nat)
    (hfail : r.failing = false)
    (hround : parse (stringify v) = Except.ok v)
    (hnonempty : stringify v ≠ "")
    (httl : now2 < now + ttl) :
    ∀ r1 log1, setCache stringify r now k v ttl = Except.ok (r1, log1) →
      getCache parse r1 now2 k = Except.ok (some v)
      ∧ ∀ r2 log2, deleteCache r1 k = Except.ok (r2, log2) →
          getCache parse r2 now2 k = Except.ok none := by
  intro r1 log1 hset
  have hset2 : redisSetex r now k ttl (stringify v) = Except.ok { r with entries := r.entries.filter (fun e => e.1 ≠ k) ++ [(k, stringify v, now + ttl)] } := by
    rw [redisSetex, hfail]
    rfl
  have hr1 : r1 = { r with entries := r.entries.filter (fun e => e.1 ≠ k) ++ [(k, stringify v, now + ttl)] } := by
    rw [setCache, hset2] at hset
    exact (congrArg Prod.fst (Except.ok.inj hset)).symm
  have hfilter : ∀ l : List (String × String × Nat), (l.filter (fun e => e.1 ≠ k)).find? (fun e => e.1 = k) = none := by
    intro l
    rw [List.find?_eq_none]
    intro e he
    have := (List.mem_filter.mp he).2
    simpa using this
  have hfind : (r.entries.filter (fun e => e.1 ≠ k) ++ [(k, stringify v, now + ttl)]).find? (fun e => e.1 = k) = some (k, stringify v, now + ttl) := by
    rw [find?_append_eq, hfilter]
    simp [List.find?_cons_of_pos]
  constructor
  · rw [getCache, hr1]
    have hget : redisGet { r with entries := r.entries.filter (fun e => e.1 ≠ k) ++ [(k, stringify v, now + ttl)] } now2 k = Except.ok (some (stringify v)) := by
      rw [redisGet]
      simp only [hfail, Bool.false_eq_true, if_false]
      rw [hfind]
      simp [httl]
    rw [hget]
    dsimp only
    rw [if_neg hnonempty, hround]
  · intro r2 log2 hdel
    have hdel2 : redisDel r1 k = Except.ok { r1 with entries := r1.entries.filter (fun e => e.1 ≠ k) } := by
      rw [redisDel]
      have hf1 : r1.failing = false := by rw [hr1]; exact hfail
      rw [hf1]
      rfl
    have hr2 : r2 = { r1 with entries := r1.entries.filter (fun e => e.1 ≠ k) } := by
      rw [deleteCache, hdel2] at hdel
      exact (congrArg Prod.fst (Except.ok.inj hdel)).symm
    rw [getCache, hr2]
    have hget : redisGet { r1 with entries := r1.entries.filter (fun e => e.1 ≠ k) } now2 k = Except.ok none := by
      rw [redisGet]
      have hf1 : r1.failing = false := by rw [hr1]; exact hfail
      simp only [hf1, Bool.false_eq_true, if_false]
      rw [hfilter]
      rfl
    rw [hget]

/-- Witness for C8: caching `true` under key `k` at time `0` with ttl `10`,
reading back at time `5` hits with `true`; after `deleteCache` it misses. -/
theorem C8_witness :
    getCache parseBool
      { entries := [("k", "true", 10)], failing := false } 5 "k" = Except.ok (some true)
    ∧ getCache parseBool
      { entries := [], failing := false } 5 "k" = Except.ok none := by
  have h := C8_cache_get_set_invalidate (V := Bool) stringifyBool parseBool
    { entries := [], failing := false } 0 5 "k" true 10 rfl (by rfl) (by decide) (by decide)
  have h1 := h { entries := [("k", "true", 10)], failing := false } [] rfl
  exact ⟨h1.1, h1.2 { entries := [], failing := false } [] rfl⟩

/-! ## C9: cache operations are total toward their callers -/

/-- C9: every public cache operation resolves for every store state and
every serializer — no backing-store error escapes — and when the connection
is failing, `getCache` returns a miss (`null`) while `setCache`,
`deleteCache` and `clearPattern` leave the store untouched and log the
error instead of propagating it. -/
theorem C9_cache_operations_total {V : Type} (stringify : V → String)
    (parse : String → Except JsError V) (r : Redis) (now : Nat)
    (k pat : String) (v : V) (ttl : Nat) :
    (setCache stringify r now k v ttl).isOk = true
    ∧ (getCache parse r now k).isOk = true
    ∧ (deleteCache r k).isOk = true
    ∧ (clearPattern r pat).isOk = true
    ∧ (r.failing = true →
        getCache parse r now k = Except.ok none
        ∧ setCache stringify r now k v ttl =
            Except.ok (r, ["Redis set error: connection error"])
        ∧ deleteCache r k = Except.ok (r, ["Redis delete error: connection error"])
        ∧ clearPattern r pat =
            Except.ok (r, ["Redis clear pattern error: connection error"])) := by
  refine ⟨?_, ?_, ?_, ?_, ?_⟩
  · rw [setCache]
    cases hs : redisSetex r now k ttl (stringify v) <;> rfl
  · rw [getCache]
    cases hg : redisGet r now k with
    | error e => rfl
    | ok v? =>
        cases v? with
        | none => rfl
        | some s =>
            dsimp only
            by_cases hs : s = ""
            · rw [if_pos hs]
              rfl
            · rw [if_neg hs]
              cases parse s <;> rfl
  · rw [deleteCache]
    cases hd : redisDel r k <;> rfl
  · rw [clearPattern]
    cases hk : redisKeys r pat with
    | error e => rfl
    | ok ks =>
        dsimp only
        by_cases hl : ks.length > 0
        · rw [if_pos hl]
          cases redisDelMany r ks <;> rfl
        · rw [if_neg hl]
          rfl
  · intro hfail
    refine ⟨?_, ?_, ?_, ?_⟩
    · rw [getCache, redisGet, if_pos hfail]
    · rw [setCache, redisSetex, if_pos hfail]
      rfl
    · rw [deleteCache, redisDel, if_pos hfail]
      rfl
    · rw [clearPattern, redisKeys, if_pos hfail]
      rfl

/-- Witness for C9 at a failing connection holding one entry: `getCache`
misses, and the three mutating helpers return the untouched store with the
error logged. -/
theorem C9_witness :
    getCache parseBool { entries := [("a", "true", 9)], failing := true } 3 "a" =
      Except.ok none
    ∧ setCache stringifyBool { entries := [("a", "true", 9)], failing := true } 3 "b" false 7 =
      Except.ok ({ entries := [("a", "true", 9)], failing := true }, ["Redis set error: connection error"])
    ∧ deleteCache { entries := [("a", "true", 9)], failing := true } "a" =
      Except.ok ({ entries := [("a", "true", 9)], failing := true }, ["Redis delete error: connection error"])
    ∧ clearPattern { entries := [("a", "true", 9)], failing := true } "a*" =
      Except.ok ({ entries := [("a", "true", 9)], failing := true }, ["Redis clear pattern error: connection error"]) :=
  (C9_cache_operations_total (V := Bool) stringifyBool parseBool
    { entries := [("a", "true", 9)], failing := true } 3 "a" "a*" false 7).2.2.2.2 rfl

/-! ## Map lemmas for the `onlineUsers` registry -/

theorem find?_map_overwrite (m : List (String × String)) (k v k2 : String)
    (hne : k2 ≠ k) :
    ((m.map (fun p => if p.1 = k then (k, v) else p)).find? (fun p => p.1 = k2)) =
      m.find? (fun p => p.1 = k2) := by
  induction m with
  | nil => rfl
  | cons p rest ih =>
      by_cases hp : p.1 = k
      · have h1 : ¬((k : String), v).1 = k2 := fun he => hne he.symm
        have h2 : ¬p.1 = k2 := fun he => hne (he.symm.trans hp)
        simp only [List.map_cons, if_pos hp]
        rw [List.find?_cons_of_neg _ (by simpa using h1),
            List.find?_cons_of_neg _ (by simpa using h2), ih]
      · simp only [List.map_cons, if_neg hp]
        by_cases hq : p.1 = k2
        · rw [List.find?_cons_of_pos _ (by simpa using hq),
              List.find?_cons_of_pos _ (by simpa using hq)]
        · rw [List.find?_cons_of_neg _ (by simpa using hq),
              List.find?_cons_of_neg _ (by simpa using hq), ih]

theorem mapGet_set_self (m : List (String × String)) (k v : String) :
    mapGet (mapSet m k v) k = some v := by
  rw [mapSet]
  by_cases h : (m.find? (fun p => p.1 = k)).isSome
  · rw [if_pos h, mapGet]
    have : ∀ m2 : List (String × String),
        (m2.find? (fun p => p.1 = k)).isSome = true →
        ((m2.map (fun p => if p.1 = k then (k, v) else p)).find?
          (fun p => p.1 = k)) = some (k, v) := by
      intro m2 hm2
      induction m2 with
      | nil => simp [List.find?] at hm2
      | cons p rest ih =>
          by_cases hp : p.1 = k
          · simp only [List.map_cons, if_pos hp]
            rw [List.find?_cons_of_pos _ (by simp)]
          · simp only [List.map_cons, if_neg hp]
            rw [List.find?_cons_of_neg _ (by simpa using hp)]
            rw [List.find?_cons_of_neg _ (by simpa using hp)] at hm2
            exact ih hm2
    rw [this m (by simpa using h)]
    rfl
  · rw [if_neg h, mapGet, find?_append_eq]
    have hnone : m.find? (fun p => p.1 = k) = none := by
      cases hm : m.find? (fun p => p.1 = k) with
      | none => rfl
      | some a => rw [hm] at h; simp at h
    rw [hnone]
    simp [List.find?_cons_of_pos]

theorem mapGet_set_other (m : List (String × String)) (k v k2 : String)
    (hne : k2 ≠ k) : mapGet (mapSet m k v) k2 = mapGet m k2 := by
  rw [mapSet]
  by_cases h : (m.find? (fun p => p.1 = k)).isSome
  · rw [if_pos h, mapGet, mapGet, find?_map_overwrite m k v k2 hne]
  · rw [if_neg h, mapGet, mapGet, find?_append_eq]
    cases hm : m.find? (fun p => p.1 = k2) with
    | some a => rfl
    | none =>
        have : (((k : String), v) :: []).find? (fun p => p.1 = k2) = none := by
          rw [List.find?_cons_of_neg _ (by simpa using fun he => hne he.symm)]
          rfl
        rw [this]

theorem mapGet_delete_self (m : List (String × String)) (k : String) :
    mapGet (mapDelete m k) k = none := by
  rw [mapDelete, mapGet]
  have : (m.filter (fun p => p.1 ≠ k)).find? (fun p => p.1 = k) = none := by
    rw [List.find?_eq_none]
    intro p hp
    have := (List.mem_filter.mp hp).2
    simpa using this
  rw [this]
  rfl

theorem mapGet_delete_other (m : List (String × String)) (k k2 : String)
    (hne : k2 ≠ k) : mapGet (mapDelete m k) k2 = mapGet m k2 := by
  rw [mapDelete, mapGet, mapGet]
  have : (m.filter (fun p => p.1 ≠ k)).find? (fun p => p.1 = k2) =
      m.find? (fun p => p.1 = k2) := by
    induction m with
    | nil => rfl
    | cons p rest ih =>
        by_cases hp : p.1 = k
        · have h2 : ¬p.1 = k2 := fun he => hne (he.symm.trans hp)
          rw [List.find?_cons_of_neg _ (by simpa using h2)]
          have : (p :: rest).filter (fun q => q.1 ≠ k) =
              rest.filter (fun q => q.1 ≠ k) := by
            simp [List.filter_cons, hp]
          rw [this, ih]
        · have : (p :: rest).filter (fun q => q.1 ≠ k) =
              p :: rest.filter (fun q => q.1 ≠ k) := by
            simp [List.filter_cons, hp]
          rw [this]
          by_cases hq : p.1 = k2
          · rw [List.find?_cons_of_pos _ (by simpa using hq),
                List.find?_cons_of_pos _ (by simpa using hq)]
          · rw [List.find?_cons_of_neg _ (by simpa using hq),
                List.find?_cons_of_neg _ (by simpa using hq), ih]
  rw [this]

/-! ## C3: presence tracks at most one handle per user -/

/-- C3 counterexample: after `register("u","h1")`, `register("u","h2")` and
an unregister of handle `h1` only, the spec-side ledger still holds the
never-unregistered handle `h2`, yet the code reports the user offline: the
`authenticate` handler overwrites the single map slot and the `disconnect`
handler deletes the user outright, so the claimed iff fails at this
input. -/
theorem C3_counterexample :
    specRegisteredHandles
      [RegEvent.reg "u" "h1", RegEvent.reg "u" "h2", RegEvent.unreg "u" "h1"] "u" ≠ []
    ∧ isOnline
        (disconnect (authenticate (authenticate stAllOffline "u" "h1") "u" "h2")
          (some "u")) "u" = false := by
  refine ⟨?_, ?_⟩
  · decide
  · rfl

/-- C3 amended: the registry keeps at most one connection handle per user —
`authenticate` overwrites the user's single slot and any `disconnect` of a
socket authenticated as the user removes the user outright.  Hence
immediately after a register the user is online, and immediately after any
unregister they are offline even if another handle had been registered and
never unregistered; other users' presence is untouched by either call. -/
theorem C3_amended (st : ChatState) (u sock v : String) :
    isOnline (authenticate st u sock) u = true
    ∧ isOnline (disconnect st (some u)) u = false
    ∧ (v ≠ u →
        isOnline (authenticate st u sock) v = isOnline st v
        ∧ isOnline (disconnect st (some u)) v = isOnline st v) := by
  refine ⟨?_, ?_, fun hne => ⟨?_, ?_⟩⟩
  · rw [isOnline, authenticate]
    dsimp only
    rw [mapGet_set_self]
    rfl
  · rw [isOnline, disconnect]
    dsimp only
    rw [mapGet_delete_self]
    rfl
  · rw [isOnline, authenticate, isOnline]
    dsimp only
    rw [mapGet_set_other st.onlineUsers u sock v hne]
  · rw [isOnline, disconnect, isOnline]
    dsimp only
    rw [mapGet_delete_other st.onlineUsers u v hne]

/-- Witness for C3 amended at a concrete state: registering `b` puts them
online, a disconnect takes them offline, and `a`'s presence is unchanged by
both. -/
theorem C3_witness :
    isOnline (authenticate stOnlineB "a" "sA2") "a" = true
    ∧ isOnline (disconnect stOnlineB (some "b")) "b" = false
    ∧ (isOnline (authenticate stOnlineB "a" "sA2") "b" = isOnline stOnlineB "b"
       ∧ isOnline (disconnect stOnlineB (some "a")) "b" = isOnline stOnlineB "b") := by
  refine ⟨(C3_amended stOnlineB "a" "sA2" "b").1,
          (C3_amended stOnlineB "b" "x" "a").2.1, ?_, ?_⟩
  · exact ((C3_amended stOnlineB "a" "sA2" "b").2.2 (by decide)).1
  · exact ((C3_amended stOnlineB "a" "x" "b").2.2 (by decide)).2

/-! ## Send-pipeline lemmas -/

theorem handleSend_offline (st : ChatState) (uid sock rid content kind mid : String)
    (hr : rid ≠ "") (hc : content ≠ "") (hu : uid ∈ st.users) (hri : rid ∈ st.users)
    (hoff : mapGet st.onlineUsers rid = none) :
    handleSend st (some uid) sock rid content kind mid =
      ({ st with messages := st.messages ++ [⟨mid, uid, rid, content, kind, false⟩] },
       [SockEvent.messageSent sock ⟨mid, uid, rid, content, kind, false⟩],
       some (mid, uid, rid, content)) := by
  rw [handleSend]
  rw [if_neg (by simp [hr, hc])]
  rw [if_pos ⟨hu, hri⟩]
  dsimp only
  rw [hoff]

theorem handleSend_online (st : ChatState) (uid sock rid rsock content kind mid : String)
    (hr : rid ≠ "") (hc : content ≠ "") (hu : uid ∈ st.users) (hri : rid ∈ st.users)
    (hon : mapGet st.onlineUsers rid = some rsock) :
    handleSend st (some uid) sock rid content kind mid =
      ({ st with messages := liveMarkRead (st.messages ++ [⟨mid, uid, rid, content, kind, false⟩]) mid },
       [SockEvent.messageReceive rsock ⟨mid, uid, rid, content, kind, false⟩,
        SockEvent.messageSent sock ⟨mid, uid, rid, content, kind, true⟩],
       some (mid, uid, rid, content)) := by
  rw [handleSend]
  rw [if_neg (by simp [hr, hc])]
  rw [if_pos ⟨hu, hri⟩]
  dsimp only
  rw [hon]

theorem sendMessage_eq (st : ChatState) (uid? : Option String)
    (sock rid content kind mid : String) :
    sendMessage st uid? sock rid content kind mid =
      match handleSend st uid? sock rid content kind mid with
      | (st1, evs, some (mid2, sid, rid2, body)) =>
          (chatMessageSentListener st1 mid2 sid rid2 body, evs)
      | (st1, evs, none) => (st1, evs) := rfl

/-! ## C2: offline send creates a durable notification, no live push -/

/-- C2: when the recipient is offline at send time, the completed pipeline
has persisted the message with its read/delivered flag false, emitted only
the `message:sent` acknowledgment to the sender — in particular no
`message:receive` push toward the recipient — and, through the
`chat.message.sent` domain event and the notification fan-out, appended a
durable Notification record for the recipient. -/
theorem C2_offline_send_notifies (st : ChatState)
    (uid sock rid content kind mid : String)
    (hoff : mapGet st.onlineUsers rid = none)
    (hu : uid ∈ st.users) (hri : rid ∈ st.users)
    (hr : rid ≠ "") (hc : content ≠ "") :
    (sendMessage st (some uid) sock rid content kind mid).1.messages =
        st.messages ++ [⟨mid, uid, rid, content, kind, false⟩]
    ∧ (sendMessage st (some uid) sock rid content kind mid).1.notifications =
        st.notifications ++
          [⟨rid, "chat_message", "New Message", "You have a new message",
            [("senderId", uid), ("messageId", mid), ("preview", content.take 100)]⟩]
    ∧ (sendMessage st (some uid) sock rid content kind mid).2 =
        [SockEvent.messageSent sock ⟨mid, uid, rid, content, kind, false⟩] := by
  have hsend := handleSend_offline st uid sock rid content kind mid hr hc hu hri hoff
  have hpipe : sendMessage st (some uid) sock rid content kind mid =
      (chatMessageSentListener
        { st with messages := st.messages ++ [⟨mid, uid, rid, content, kind, false⟩] }
        mid uid rid content,
       [SockEvent.messageSent sock ⟨mid, uid, rid, content, kind, false⟩]) := by
    rw [sendMessage_eq, hsend]
  rw [hpipe]
  rw [chatMessageSentListener]
  dsimp only
  rw [hoff]
  exact ⟨rfl, rfl, rfl⟩

set_option maxRecDepth 8192 in
/-- Witness for C2: `a` sends "hi" to the offline `b`; the message is
stored unread, only the sender ack is emitted, and a `chat_message`
notification record for `b` is appended. -/
theorem C2_witness :
    (sendMessage stAllOffline (some "a") "sA" "b" "hi" "text" "m1").1.messages =
        [⟨"m1", "a", "b", "hi", "text", false⟩]
    ∧ (sendMessage stAllOffline (some "a") "sA" "b" "hi" "text" "m1").1.notifications =
        [⟨"b", "chat_message", "New Message", "You have a new message",
          [("senderId", "a"), ("messageId", "m1"), ("preview", "hi")]⟩]
    ∧ (sendMessage stAllOffline (some "a") "sA" "b" "hi" "text" "m1").2 =
        [SockEvent.messageSent "sA" ⟨"m1", "a", "b", "hi", "text", false⟩] := by
  have h := C2_offline_send_notifies stAllOffline "a" "sA" "b" "hi" "text" "m1"
    rfl (by decide) (by decide) (by decide) (by decide)
  exact ⟨h.1, h.2.1, h.2.2⟩

/-! ## C1: the read flag on the live-delivery path -/

set_option maxRecDepth 8192 in
/-- C1 counterexample: `a` sends "hi" to `b` who is online; when the send
completes and before any `markRead` call, the stored message's read flag is
already true — the online branch of `message:send` runs `UPDATE
chat_messages SET is_read = true` immediately after the live push, so the
read flag is set as a side effect of delivery, not only by the recipient's
read-receipt call. -/
theorem C1_counterexample :
    ((sendMessage stOnlineB (some "a") "sA" "b" "hi" "text" "m1").1.messages.find?
        (fun m => m.id = "m1")).map Msg.isRead = some true := by
  decide

/-- C1 amended: after a valid send completes, the stored message's read
flag equals the recipient's online status at send time — the online branch
marks the message read immediately as part of live delivery, and only for
an offline recipient does the flag stay false until a later read action. -/
theorem C1_amended_read_iff_delivered_live (st : ChatState)
    (uid sock rid content kind mid : String)
    (hu : uid ∈ st.users) (hri : rid ∈ st.users)
    (hr : rid ≠ "") (hc : content ≠ "")
    (hfresh : ∀ m ∈ st.messages, m.id ≠ mid) :
    ((sendMessage st (some uid) sock rid content kind mid).1.messages.find?
        (fun m => m.id = mid)).map Msg.isRead = some (isOnline st rid) := by
  have hold : st.messages.find? (fun m => m.id = mid) = none := by
    rw [List.find?_eq_none]
    intro m hm
    simpa using hfresh m hm
  cases hon : mapGet st.onlineUsers rid with
  | none =>
      have hsend := handleSend_offline st uid sock rid content kind mid hr hc hu hri hon
      have hpipe : (sendMessage st (some uid) sock rid content kind mid).1.messages =
          st.messages ++ [⟨mid, uid, rid, content, kind, false⟩] := by
        rw [sendMessage_eq, hsend]
        dsimp only
        rw [chatMessageSentListener]
        dsimp only
        rw [hon]
      rw [hpipe, find?_append_eq, hold]
      rw [List.find?_cons_of_pos _ (by simp)]
      rw [isOnline, hon]
      rfl
  | some rsock =>
      have hsend := handleSend_online st uid sock rid rsock content kind mid hr hc hu hri hon
      have hmapid : st.messages.map
          (fun m => if m.id = mid then { m with isRead := true } else m) = st.messages := by
        have : ∀ m ∈ st.messages,
            (if m.id = mid then { m with isRead := true } else m) = m := by
          intro m hm
          rw [if_neg (hfresh m hm)]
        calc st.messages.map (fun m => if m.id = mid then { m with isRead := true } else m)
            = st.messages.map id := List.map_congr_left this
          _ = st.messages := List.map_id st.messages
      have hpipe : (sendMessage st (some uid) sock rid content kind mid).1.messages =
          st.messages ++ [⟨mid, uid, rid, content, kind, true⟩] := by
        rw [sendMessage_eq, hsend]
        dsimp only
        rw [chatMessageSentListener]
        dsimp only
        rw [hon]
        dsimp only
        rw [liveMarkRead, List.map_append, hmapid]
        simp
      rw [hpipe, find?_append_eq, hold]
      rw [List.find?_cons_of_pos _ (by simp)]
      rw [isOnline, hon]
      rfl

/-- Witness for C1 amended: the offline instance — `b` offline at send
time, so the stored flag is `false` (and `isOnline` is `false`). -/
theorem C1_witness :
    ((sendMessage stAllOffline (some "a") "sA" "b" "hi" "text" "m1").1.messages.find?
        (fun m => m.id = "m1")).map Msg.isRead = some (isOnline stAllOffline "b") :=
  C1_amended_read_iff_delivered_live stAllOffline "a" "sA" "b" "hi" "text" "m1"
    (by decide) (by decide) (by decide) (by decide) (by decide)

/-! ## C4: send to a nonexistent recipient fails and persists nothing -/

/-- C4: when no user row carries the recipient id, the `message:send`
handler fails — the `INSERT` violates the `receiver_id REFERENCES users`
constraint, the catch surfaces an error event to the sender's socket — and
the state is untouched: no message row, no notification, no live push, no
`message:sent` acknowledgment. -/
theorem C4_recipient_not_found (st : ChatState) (uid? : Option String)
    (sock rid content kind mid : String)
    (hrid : rid ∉ st.users) :
    (sendMessage st uid? sock rid content kind mid).1 = st
    ∧ ∃ msg, (sendMessage st uid? sock rid content kind mid).2 =
        [SockEvent.errorEvt sock msg] := by
  cases uid? with
  | none => exact ⟨rfl, "Not authenticated", rfl⟩
  | some uid =>
      by_cases hb : rid = "" ∨ content = ""
      · have hsend : handleSend st (some uid) sock rid content kind mid =
            (st, [SockEvent.errorEvt sock "Receiver ID and content are required"], none) := by
          rw [handleSend]
          rw [if_pos hb]
        rw [sendMessage, hsend]
        exact ⟨rfl, "Receiver ID and content are required", rfl⟩
      · have hsend : handleSend st (some uid) sock rid content kind mid =
            (st, [SockEvent.errorEvt sock "Failed to send message"], none) := by
          rw [handleSend]
          rw [if_neg hb]
          rw [if_neg (fun hand => hrid hand.2)]
        rw [sendMessage, hsend]
        exact ⟨rfl, "Failed to send message", rfl⟩

/-- Witness for C4: sending to the nonexistent user `z` leaves the state
unchanged and surfaces an error event to the sender. -/
theorem C4_witness :
    (sendMessage stAllOffline (some "a") "sA" "z" "hi" "text" "m1").1 = stAllOffline
    ∧ ∃ msg, (sendMessage stAllOffline (some "a") "sA" "z" "hi" "text" "m1").2 =
        [SockEvent.errorEvt "sA" msg] :=
  C4_recipient_not_found stAllOffline (some "a") "sA" "z" "hi" "text" "m1" (by decide)

/-! ## Read-receipt lemmas -/

theorem handleRead_fst (st : ChatState) (reader mid : String) :
    (handleRead st (some reader) mid).1 =
      { st with messages := recipientMarkRead st.messages mid reader } := by
  rw [handleRead]
  dsimp only
  cases hfind : (recipientMarkRead st.messages mid reader).find? (fun m => m.id = mid) with
  | none => rfl
  | some m =>
      dsimp only
      cases hon : mapGet st.onlineUsers m.senderId <;> rfl

theorem handleRead_snd (st : ChatState) (reader mid : String) :
    (handleRead st (some reader) mid).2 =
      match (recipientMarkRead st.messages mid reader).find? (fun m => m.id = mid) with
      | none => []
      | some m =>
          match mapGet st.onlineUsers m.senderId with
          | some ssock => [SockEvent.messageRead ssock mid]
          | none => [] := by
  rw [handleRead]
  dsimp only
  cases hfind : (recipientMarkRead st.messages mid reader).find? (fun m => m.id = mid) with
  | none => rfl
  | some m =>
      dsimp only
      cases hon : mapGet st.onlineUsers m.senderId <;> rfl

theorem recipientMarkRead_idem (l : List Msg) (mid r : String) :
    recipientMarkRead (recipientMarkRead l mid r) mid r =
      recipientMarkRead l mid r := by
  simp only [recipientMarkRead, List.map_map]
  apply List.map_congr_left
  intro m _
  by_cases h : m.id = mid ∧ m.receiverId = r
  · simp only [Function.comp_apply, if_pos h]
  · simp only [Function.comp_apply, if_neg h]

theorem find?_recipientMarkRead (l : List Msg) (mid r : String) :
    (recipientMarkRead l mid r).find? (fun m => m.id = mid) =
      (l.find? (fun m => m.id = mid)).map
        (fun m => if m.id = mid ∧ m.receiverId = r then { m with isRead := true } else m) := by
  induction l with
  | nil => rfl
  | cons m rest ih =>
      rw [recipientMarkRead, List.map_cons]
      by_cases hid : m.id = mid
      · have hfid : ((if m.id = mid ∧ m.receiverId = r then { m with isRead := true } else m) :
            Msg).id = mid := by
          by_cases hrc : m.receiverId = r
          · rw [if_pos ⟨hid, hrc⟩]
            exact hid
          · rw [if_neg (fun hand => hrc hand.2)]
            exact hid
        rw [List.find?_cons_of_pos _ (by simpa using hfid),
            List.find?_cons_of_pos _ (by simpa using hid)]
        rfl
      · have hfm : (if m.id = mid ∧ m.receiverId = r then { m with isRead := true } else m) =
            m := by
          rw [if_neg (fun hand => hid hand.1)]
        rw [hfm, List.find?_cons_of_neg _ (by simpa using hid),
            List.find?_cons_of_neg _ (by simpa using hid)]
        rw [recipientMarkRead] at ih
        exact ih

/-! ## C5: markRead authorization, idempotence, receipt push -/

/-- C5 counterexample: user `c`, who is not the recipient of message `m1`
(sent `a` → `b`), calls `message:read` while the sender `a` is online.  The
claim requires the call to fail with `Unauthorized` and push nothing, but
the handler completes without any failure and still pushes the
`message:read` receipt to `a`'s socket — the `SELECT sender_id` and the
sender notification run regardless of whether the guarded `UPDATE` matched
any row (the flag itself is indeed unchanged). -/
theorem C5_counterexample :
    (handleRead stReadScenario (some "c") "m1").1 = stReadScenario
    ∧ (handleRead stReadScenario (some "c") "m1").2 =
        [SockEvent.messageRead "sA" "m1"] := by
  refine ⟨?_, ?_⟩ <;> rfl

/-- C5 amended: only the flag mutation is recipient-guarded.  A caller who
is recipient of no message with the given id leaves the state unchanged,
and the call does not fail — no `Unauthorized` error exists — but the
read-receipt is pushed to the sender whenever the message exists and its
sender is online, regardless of the caller (so in particular for the
recorded recipient, whose call additionally sets the read flag); the
mutation is idempotent. -/
theorem C5_markRead_guard_and_receipt (st : ChatState) (reader mid : String) :
    ((∀ m ∈ st.messages, ¬(m.id = mid ∧ m.receiverId = reader)) →
        (handleRead st (some reader) mid).1 = st)
    ∧ (handleRead (handleRead st (some reader) mid).1 (some reader) mid).1 =
        (handleRead st (some reader) mid).1
    ∧ (∀ m ssock, st.messages.find? (fun m2 => m2.id = mid) = some m →
        mapGet st.onlineUsers m.senderId = some ssock →
        (handleRead st (some reader) mid).2 = [SockEvent.messageRead ssock mid])
    ∧ (∀ m, st.messages.find? (fun m2 => m2.id = mid) = some m →
        m.receiverId = reader →
        ((handleRead st (some reader) mid).1.messages.find?
            (fun m2 => m2.id = mid)).map Msg.isRead = some true) := by
  refine ⟨?_, ?_, ?_, ?_⟩
  · intro hnone
    rw [handleRead_fst]
    have : recipientMarkRead st.messages mid reader = st.messages := by
      rw [recipientMarkRead]
      calc st.messages.map
            (fun m => if m.id = mid ∧ m.receiverId = reader then { m with isRead := true } else m)
          = st.messages.map id :=
            List.map_congr_left (fun m hm => if_neg (hnone m hm))
        _ = st.messages := List.map_id st.messages
    rw [this]
  · rw [handleRead_fst, handleRead_fst]
    dsimp only
    rw [recipientMarkRead_idem]
  · intro m ssock hfind hon
    rw [handleRead_snd, find?_recipientMarkRead, hfind, Option.map_some']
    by_cases hc : m.id = mid ∧ m.receiverId = reader
    · rw [if_pos hc]
      dsimp only
      rw [hon]
    · rw [if_neg hc]
      dsimp only
      rw [hon]
  · intro m hfind hrecv
    have hid : m.id = mid := by simpa using List.find?_some hfind
    rw [handleRead_fst]
    dsimp only
    rw [find?_recipientMarkRead, hfind, Option.map_some']
    rw [if_pos ⟨hid, hrecv⟩]
    rfl

set_option maxRecDepth 8192 in
/-- Witness for C5 amended at the concrete read scenario: the stranger `c`
leaves the state unchanged, a repeat of `b`'s markRead is a no-op on the
state, both `c`'s call and the recipient `b`'s call trigger the receipt
push to the online sender `a`, and `b`'s call marks the message read. -/
theorem C5_witness :
    (handleRead stReadScenario (some "c") "m1").1 = stReadScenario
    ∧ (handleRead (handleRead stReadScenario (some "b") "m1").1 (some "b") "m1").1 =
        (handleRead stReadScenario (some "b") "m1").1
    ∧ (handleRead stReadScenario (some "c") "m1").2 = [SockEvent.messageRead "sA" "m1"]
    ∧ (handleRead stReadScenario (some "b") "m1").2 = [SockEvent.messageRead "sA" "m1"]
    ∧ ((handleRead stReadScenario (some "b") "m1").1.messages.find?
        (fun m2 => m2.id = "m1")).map Msg.isRead = some true := by
  refine ⟨?_, (C5_markRead_guard_and_receipt stReadScenario "b" "m1").2.1, ?_, ?_, ?_⟩
  · exact (C5_markRead_guard_and_receipt stReadScenario "c" "m1").1 (by decide)
  · exact (C5_markRead_guard_and_receipt stReadScenario "c" "m1").2.2.1
      ⟨"m1", "a", "b", "hi", "text", false⟩ "sA" (by decide) (by decide)
  · exact (C5_markRead_guard_and_receipt stReadScenario "b" "m1").2.2.1
      ⟨"m1", "a", "b", "hi", "text", false⟩ "sA" (by decide) (by decide)
  · exact (C5_markRead_guard_and_receipt stReadScenario "b" "m1").2.2.2
      ⟨"m1", "a", "b", "hi", "text", false⟩ (by decide) (by decide)

/-! ## C7: self-directed actions never notify -/

/-- C7: a self-directed action produces no Notification record: the
`post.liked` listener suppresses the notification when the liked post's
author is the liker, and the `comment.created` listener suppresses it when
the commenter is the post author named in the payload. -/
theorem C7_self_action_suppressed (posts : List Post) (notifs : List Notification)
    (postId uid cid pid2 : String) (p : Post)
    (hfind : posts.find? (fun q => q.id = postId) = some p)
    (hself : p.userId = uid) :
    postLikedListener posts notifs postId uid = notifs
    ∧ commentCreatedListener notifs pid2 uid uid cid = notifs := by
  constructor
  · rw [postLikedListener, hfind]
    dsimp only
    rw [if_neg (fun hne => hne hself)]
  · rw [commentCreatedListener]
    rw [if_neg (fun hne => hne rfl)]

/-- Witness for C7: `d` likes their own post `p1` and comments on their own
post — neither produces a notification record. -/
theorem C7_witness :
    postLikedListener [⟨"p1", "d", "T"⟩] [] "p1" "d" = []
    ∧ commentCreatedListener [] "p1" "d" "d" "c1" = [] :=
  C7_self_action_suppressed [⟨"p1", "d", "T"⟩] [] "p1" "d" "c1" "p1"
    ⟨"p1", "d", "T"⟩ (by decide) rfl

end PostMaster
